import Mathlib

/-!
Verification of `src/lib/mongodb.ts` from nextjs16-techHub: a cached
Mongoose connection helper for Next.js.

The module keeps a process-wide cache `{ conn, promise }` (shared through
`global.mongoose`), validates the `MONGODB_URI` environment variable at
module evaluation time, and exposes `connectDB()`, which

  * returns `cached.conn` immediately when it is set,
  * otherwise starts `mongoose.connect(MONGODB_URI, { bufferCommands: false })`
    if `cached.promise` is null, storing the promise in the cache,
  * awaits `cached.promise`, stores the resolved instance in `cached.conn`
    and returns it, and on rejection resets `cached.promise` to null and
    rethrows the error.

The embedding below splits the async function into its synchronous prefix
(everything up to the `await`, `startCall`) and the continuation that runs
when the awaited promise settles (`settleOne`).  Mongoose instances,
promises and errors are represented by natural-number identifiers.
-/

namespace TechHub

/-- The `options` record passed to `mongoose.connect` (source lines 49-51). -/
structure DriverOptions where
  bufferCommands : Bool
deriving DecidableEq, Repr

/-- The `MongooseCache` interface (source lines 4-7): `conn` holds the
connected mongoose instance, `promise` the in-flight connection promise;
both nullable. -/
structure MongooseCache where
  conn : Option Nat
  promise : Option Nat
deriving DecidableEq, Repr

/-- One invocation of the driver entry point `mongoose.connect(uri, options)`,
recording the arguments it received. -/
structure ConnectCall where
  uri : String
  options : DriverOptions
deriving DecidableEq, Repr

/-- What the synchronous prefix of `connectDB` does before the function
suspends: either it returns `cached.conn` at once, or it reaches the
`await cached.promise` suspension point awaiting promise `p`. -/
inductive StartRes where
  | returnConn (h : Nat)
  | awaitP (p : Nat)
deriving DecidableEq, Repr

/-- Outcome with which the driver settles a connection promise: fulfilled
with a mongoose instance, or rejected with an error. -/
inductive DriverOutcome where
  | ok (h : Nat)
  | err (e : Nat)
deriving DecidableEq, Repr

/-- Synchronous prefix of `connectDB` (source lines 41-57): the code up to
`await cached.promise`.  If `cached.conn` is set it is returned directly;
otherwise, if `cached.promise` is null, `mongoose.connect(MONGODB_URI,
{ bufferCommands: false })` is invoked (recorded in the returned call list)
and its promise, identified by `fresh`, is stored in the cache; finally the
call suspends awaiting the cached promise. -/
def startCall (uri : String) (fresh : Nat) :
    MongooseCache → MongooseCache × StartRes × List ConnectCall
  | ⟨some h, p⟩ => (⟨some h, p⟩, .returnConn h, [])
  | ⟨none, some p⟩ => (⟨none, some p⟩, .awaitP p, [])
  | ⟨none, none⟩ =>
      (⟨none, some fresh⟩, .awaitP fresh,
        [{ uri := uri, options := { bufferCommands := false } }])

/-- Continuation of one suspended `connectDB` call once the awaited promise
settles (source lines 59-68): on fulfilment, `cached.conn = await cached.promise`
and the instance is returned; on rejection, `cached.promise = null` and the
error is rethrown. -/
def settleOne (c : MongooseCache) : DriverOutcome → MongooseCache × Except Nat Nat
  | .ok h => ({ c with conn := some h }, .ok h)
  | .err e => ({ c with promise := none }, .error e)

/-- `n` calls to `connectDB` all running their synchronous prefixes before
any promise settles (the concurrent-burst scenario).  Returns the final
cache, the per-call suspension results, and the total number of
`mongoose.connect` invocations. -/
def runStarts (uri : String) (fresh : Nat) :
    Nat → MongooseCache → MongooseCache × List StartRes × Nat
  | 0, c => (c, [], 0)
  | n + 1, c =>
      let r := startCall uri fresh c
      let rest := runStarts uri fresh n r.1
      (rest.1, r.2.1 :: rest.2.1, r.2.2.length + rest.2.2)

/-- The awaited promise settles with outcome `o` while `k` calls are
suspended on it: each waiter runs its continuation in turn, and the list of
per-waiter results (returned instance or rethrown error) is collected. -/
def broadcast (o : DriverOutcome) : Nat → MongooseCache → MongooseCache × List (Except Nat Nat)
  | 0, c => (c, [])
  | k + 1, c =>
      let r := settleOne c o
      let rest := broadcast o k r.1
      (rest.1, r.2 :: rest.2)

/-- `startCall` never writes the `conn` field of the cache. -/
theorem startCall_conn (uri : String) (fresh : Nat) (c : MongooseCache) :
    (startCall uri fresh c).1.conn = c.conn := by
  rcases c with ⟨_ | h, _ | p⟩ <;> rfl

/-- A burst of starts from a cache that is already awaiting promise `p`
(with no connection established) changes nothing and invokes the driver
zero times: every caller suspends on the same promise `p`. -/
theorem runStarts_pending (uri : String) (fresh p : Nat) :
    ∀ n, runStarts uri fresh n ⟨none, some p⟩ =
      (⟨none, some p⟩, List.replicate n (.awaitP p), 0) := by
  intro n
  induction n with
  | zero => rfl
  | succ m ih => simp [runStarts, startCall, List.replicate, ih]

/-- A burst of `n + 1` starts from the empty cache: the first start invokes
the driver once and stores promise `fresh`; every start suspends on `fresh`. -/
theorem runStarts_fresh (uri : String) (fresh : Nat) (n : Nat) :
    runStarts uri fresh (n + 1) ⟨none, none⟩ =
      (⟨none, some fresh⟩, List.replicate (n + 1) (.awaitP fresh), 1) := by
  simp [runStarts, startCall, List.replicate, runStarts_pending]

/-- The message of the error thrown when `MONGODB_URI` is missing
(source lines 20-22). -/
def mongoURIErrorMsg : String :=
  "Please define the MONGODB_URI environment variable inside .env.local"

/-- The `MONGODB_URI` validation at module evaluation (source lines 16-23):
`const MONGODB_URI = process.env.MONGODB_URI; if (!MONGODB_URI) throw ...`.
An absent variable is `undefined` and an empty string is falsy in
JavaScript, so both make `!MONGODB_URI` true and abort initialization. -/
def initMongoURI : Option String → Except String String
  | none => .error mongoURIErrorMsg
  | some s => if s = "" then .error mongoURIErrorMsg else .ok s

/-- The process-wide state seen by module evaluation: the `global.mongoose`
slot (holding a reference to a cache, or nothing) and the heap of cache
objects, addressed by index. -/
structure GlobalEnv where
  slot : Option Nat
  heap : List MongooseCache
deriving DecidableEq, Repr

/-- The cache initialization at module evaluation (source lines 28-32):
`let cached = global.mongoose || { conn: null, promise: null };
if (!global.mongoose) global.mongoose = cached;`.  Returns the reference the
module keeps in its local `cached` binding together with the updated
process state. -/
def initCache (g : GlobalEnv) : Nat × GlobalEnv :=
  match g.slot with
  | some r => (r, g)
  | none =>
      (g.heap.length,
        { slot := some g.heap.length,
          heap := g.heap ++ [⟨none, none⟩] })

/-- Whole module evaluation of `src/lib/mongodb.ts`: validate the URI, then
set up the cache.  When validation throws, evaluation aborts before
`connectDB` exists, so no connect attempt can ever be made. -/
def moduleEval (env : Option String) (g : GlobalEnv) :
    Except String (String × Nat × GlobalEnv) :=
  match initMongoURI env with
  | .error m => .error m
  | .ok uri =>
      let r := initCache g
      .ok (uri, r.1, r.2)

/-- Read the cache object referenced by `r` from the process heap. -/
def readCache (g : GlobalEnv) (r : Nat) : MongooseCache :=
  g.heap.getD r ⟨none, none⟩

/-- Write back the cache object referenced by `r`. -/
def writeCache (g : GlobalEnv) (r : Nat) (c : MongooseCache) : GlobalEnv :=
  { g with heap := g.heap.set r c }

/-- One `connectDB` synchronous prefix executed by a module whose local
`cached` binding refers to heap slot `r`. -/
def connectStartVia (uri : String) (g : GlobalEnv) (r fresh : Nat) :
    GlobalEnv × StartRes × List ConnectCall :=
  let s := startCall uri fresh (readCache g r)
  (writeCache g r s.1, s.2.1, s.2.2)

/-- Dev-mode hot-reload scenario: starting from a pristine process, the
module is evaluated twice (two independent `initCache` runs against the
shared `global` state), then each module instance issues one `connectDB`
call.  Returns the total number of `mongoose.connect` invocations. -/
def twoModuleConnectCount (uri : String) : Nat :=
  let a := initCache { slot := none, heap := [] }
  let b := initCache a.2
  let s1 := connectStartVia uri b.2 a.1 0
  let s2 := connectStartVia uri s1.1 b.1 1
  s1.2.2.length + s2.2.2.length

/-- Whole-process trace state for `connectDB`: the cache, whether the
cached promise (if any) belongs to a connect attempt that has not yet
settled, and a counter supplying fresh promise identifiers. -/
structure DBState where
  cache : MongooseCache
  inflight : Bool
  nextP : Nat
deriving DecidableEq, Repr

/-- State at process start: empty cache, nothing in flight. -/
def initDB : DBState := ⟨⟨none, none⟩, false, 0⟩

/-- Events of the `connectDB` trace machine: a new call runs its
synchronous prefix, or the in-flight connect attempt settles (a promise
settles at most once, so `settle` requires an unsettled attempt). -/
inductive DBStep (uri : String) : DBState → DBState → Prop where
  | start (s : DBState) :
      DBStep uri s
        ⟨(startCall uri s.nextP s.cache).1,
          s.inflight || !(startCall uri s.nextP s.cache).2.2.isEmpty,
          s.nextP + 1⟩
  | settle (s : DBState) (o : DriverOutcome) (h : s.inflight = true) :
      DBStep uri s ⟨(settleOne s.cache o).1, false, s.nextP⟩

/-- States reachable from process start. -/
inductive Reach (uri : String) : DBState → Prop where
  | init : Reach uri initDB
  | step {s s' : DBState} : Reach uri s → DBStep uri s s' → Reach uri s'

/-- Established-connection invariant: in every reachable state where
`cached.conn` is set, no connect attempt is pending. -/
theorem reach_conn_not_inflight {uri : String} {s : DBState}
    (hr : Reach uri s) : ∀ x, s.cache.conn = some x → s.inflight = false := by
  induction hr with
  | init => intro x hx; cases hx
  | step hr hstep ih =>
      rename_i t _
      cases hstep with
      | start =>
          intro x hx
          have hconn : t.cache.conn = some x := by
            have hcn := startCall_conn uri t.nextP t.cache
            simpa [hcn] using hx
          have hfl : t.inflight = false := ih x hconn
          rcases t with ⟨⟨_ | h, _ | p⟩, fl, np⟩ <;>
            simp_all [startCall]
      | settle o h => intro x hx; rfl

/-- A single step never unsets an established connection. -/
theorem step_preserves_conn {uri : String} {s s' : DBState} {x : Nat}
    (hr : Reach uri s) (hstep : DBStep uri s s')
    (hx : s.cache.conn = some x) : s'.cache.conn = some x := by
  cases hstep with
  | start =>
      have hcn := startCall_conn uri s.nextP s.cache
      simpa [hcn] using hx
  | settle o h =>
      have hni := reach_conn_not_inflight hr x hx
      rw [h] at hni
      cases hni

/-- Reachability is closed under step sequences. -/
theorem reach_of_steps {uri : String} {s s' : DBState}
    (hr : Reach uri s) (hs : Relation.ReflTransGen (DBStep uri) s s') :
    Reach uri s' := by
  induction hs with
  | refl => exact hr
  | tail _ hstep ih => exact Reach.step ih hstep

/-- Claim C1: for every burst of `n` concurrent `connectDB` calls issued
before any of them resolves (all starting from the empty cache), the driver
entry point `mongoose.connect` is invoked exactly once, and every caller
suspends on that same cached promise `fresh` rather than starting a new
connect attempt. -/
theorem single_connect_invocation (uri : String) (fresh n : Nat) (hn : 1 ≤ n) :
    (runStarts uri fresh n ⟨none, none⟩).2.2 = 1 ∧
    (runStarts uri fresh n ⟨none, none⟩).2.1 =
      List.replicate n (StartRes.awaitP fresh) := by
  cases n with
  | zero => cases hn
  | succ m => rw [runStarts_fresh]; exact ⟨rfl, rfl⟩

/-- Witness for C1 at a burst of three concurrent calls. -/
theorem single_connect_invocation_witness :
    (runStarts "mongodb-uri" 0 3 ⟨none, none⟩).2.2 = 1 ∧
    (runStarts "mongodb-uri" 0 3 ⟨none, none⟩).2.1 =
      List.replicate 3 (StartRes.awaitP 0) :=
  single_connect_invocation "mongodb-uri" 0 3 (by decide)

/-- Claim C2: once a connect succeeded (`cached.conn` set to handle `h`),
every subsequent `connectDB` call returns that identical handle at once,
invokes the driver zero times and leaves the cache untouched; and along any
further sequence of trace steps from a reachable such state, `cached.conn`
still holds `h`. -/
theorem connected_idempotent (uri : String) (fresh h : Nat) (s s' : DBState)
    (hr : Reach uri s) (hc : s.cache.conn = some h)
    (hs : Relation.ReflTransGen (DBStep uri) s s') :
    startCall uri fresh s.cache = (s.cache, StartRes.returnConn h, []) ∧
    s'.cache.conn = some h := by
  constructor
  · rcases s with ⟨⟨_ | x, p⟩, fl, np⟩
    · cases hc
    · cases hc; rfl
  · induction hs with
    | refl => exact hc
    | tail hab hbc ih => exact step_preserves_conn (reach_of_steps hr hab) hbc ih

/-- Witness for C2: a state reached by one start and a successful settle has
`conn = some 5`, and a later call returns handle 5 with no driver call. -/
theorem connected_idempotent_witness :
    startCall "u" 9 (⟨some 5, some 0⟩ : MongooseCache) =
      ((⟨some 5, some 0⟩ : MongooseCache), StartRes.returnConn 5, []) := by
  have h1 : DBStep "u" initDB ⟨⟨none, some 0⟩, true, 1⟩ := DBStep.start initDB
  have h2 : DBStep "u" ⟨⟨none, some 0⟩, true, 1⟩ ⟨⟨some 5, some 0⟩, false, 1⟩ :=
    DBStep.settle _ (DriverOutcome.ok 5) rfl
  have hr : Reach "u" ⟨⟨some 5, some 0⟩, false, 1⟩ :=
    Reach.step (Reach.step Reach.init h1) h2
  exact (connected_idempotent "u" 9 5 _ _ hr rfl Relation.ReflTransGen.refl).1

/-- Claim C3: when the connect attempt fails, the continuation resets
`cached.promise` to null in the same step in which it rethrows the error,
so a subsequent burst of calls starts exactly one new connect attempt. -/
theorem failure_resets_promise (uri : String) (c : MongooseCache)
    (e fresh n : Nat) (hc : c.conn = none) (hn : 1 ≤ n) :
    (settleOne c (.err e)).1.promise = none ∧
    (settleOne c (.err e)).2 = Except.error e ∧
    (runStarts uri fresh n (settleOne c (.err e)).1).2.2 = 1 := by
  refine ⟨rfl, rfl, ?_⟩
  have h1 : (settleOne c (.err e)).1 = (⟨none, none⟩ : MongooseCache) := by
    rcases c with ⟨cc, p⟩; cases hc; rfl
  rw [h1]
  cases n with
  | zero => cases hn
  | succ m => rw [runStarts_fresh]

/-- Witness for C3 at a pending cache, error 4, and a two-call retry burst. -/
theorem failure_resets_promise_witness :
    (settleOne ⟨none, some 7⟩ (.err 4)).1.promise = none ∧
    (settleOne ⟨none, some 7⟩ (.err 4)).2 = Except.error 4 ∧
    (runStarts "u" 1 2 (settleOne ⟨none, some 7⟩ (.err 4)).1).2.2 = 1 :=
  failure_resets_promise "u" ⟨none, some 7⟩ 4 1 2 rfl (by decide)

/-- Claim C4: when the driver rejects the connect promise with error `e`,
every one of the `k` callers awaiting that same attempt receives exactly
`Except.error e`: the error is rethrown unchanged, with no wrapping,
translation or substitution. -/
theorem error_passthrough (c : MongooseCache) (e k : Nat) :
    (broadcast (.err e) k c).2 = List.replicate k (Except.error e) := by
  induction k generalizing c with
  | zero => rfl
  | succ m ih => simp [broadcast, settleOne, List.replicate, ih]

/-- Claim C5: when the `MONGODB_URI` environment variable is absent or the
empty string, module evaluation throws the descriptive configuration error
and never reaches the cache setup or `connectDB`, so no connect attempt can
be made; this is a startup-time failure, not a per-call one. -/
theorem missing_uri_fatal (env : Option String) (g : GlobalEnv)
    (h : env = none ∨ env = some "") :
    moduleEval env g = Except.error mongoURIErrorMsg ∧
    ∀ ctx, moduleEval env g ≠ Except.ok ctx := by
  have hm : moduleEval env g = Except.error mongoURIErrorMsg := by
    rcases h with rfl | rfl
    · rfl
    · simp [moduleEval, initMongoURI]
  exact ⟨hm, fun ctx hctx => by rw [hm] at hctx; cases hctx⟩

/-- Witness for C5 at an absent environment variable. -/
theorem missing_uri_fatal_witness :
    moduleEval none { slot := none, heap := [] } = Except.error mongoURIErrorMsg :=
  (missing_uri_fatal none { slot := none, heap := [] } (Or.inl rfl)).1

/-- Claim C6: two module evaluations in the same process obtain the same
cache reference from the `global.mongoose` slot (for any prior process
state), and in the fresh-process two-module scenario where each module then
issues one `connectDB` call, exactly one driver connect is invoked in
total. -/
theorem shared_global_cache :
    (∀ g : GlobalEnv, (initCache (initCache g).2).1 = (initCache g).1) ∧
    (∀ uri : String, twoModuleConnectCount uri = 1) := by
  constructor
  · intro g
    rcases g with ⟨_ | r, heap⟩ <;> simp [initCache]
  · intro uri
    rfl

/-- Claim C7: whenever the synchronous prefix of `connectDB` invokes the
driver at all, it passes exactly the configured URI together with an
options record whose `bufferCommands` flag is `false`. -/
theorem connect_invocation_args (uri : String) (fresh : Nat) (c : MongooseCache)
    (h : (startCall uri fresh c).2.2 ≠ []) :
    (startCall uri fresh c).2.2 =
      [{ uri := uri, options := { bufferCommands := false } }] := by
  rcases c with ⟨_ | x, _ | p⟩ <;> first | rfl | (exact absurd rfl h)

/-- Witness for C7 at the empty cache, where a connect is invoked. -/
theorem connect_invocation_args_witness :
    (startCall "u" 0 ⟨none, none⟩).2.2 =
      [{ uri := "u", options := { bufferCommands := false } }] :=
  connect_invocation_args "u" 0 ⟨none, none⟩ (by simp [startCall])

/-- Claim C8: the failure continuation mutates only the `promise` field of
the cache (resetting it to null); the `conn` field is left exactly as it
was, and in particular a cache whose handle was null still has a null
handle after a failed attempt. -/
theorem failure_mutates_only_promise (c : MongooseCache) (e p : Nat) :
    (settleOne c (.err e)).1.conn = c.conn ∧
    (settleOne c (.err e)).1.promise = none ∧
    (settleOne ⟨none, some p⟩ (.err e)).1 = (⟨none, none⟩ : MongooseCache) :=
  ⟨rfl, rfl, rfl⟩

/-- Claim C9: the success continuation leaves `cached.promise` exactly as
it was (still pointing at the resolved promise), and the synchronous prefix
never writes null into `promise` either: the failure continuation is the
only operation that clears it. -/
theorem promise_retained_after_success :
    (∀ (c : MongooseCache) (h : Nat),
      (settleOne c (.ok h)).1.promise = c.promise) ∧
    (∀ (uri : String) (fresh : Nat) (c : MongooseCache),
      (startCall uri fresh c).1.promise = none → c.promise = none) := by
  constructor
  · intro c h; rfl
  · intro uri fresh c
    rcases c with ⟨_ | x, _ | p⟩ <;> intro h <;> first | rfl | cases h

/-- Witness for C9: a successful settle keeps `promise = some 2`, and a
start that ends with a null promise began with one. -/
theorem promise_retained_after_success_witness :
    (settleOne ⟨none, some 2⟩ (.ok 9)).1.promise = some 2 ∧
    (⟨some 3, none⟩ : MongooseCache).promise = none :=
  ⟨promise_retained_after_success.1 ⟨none, some 2⟩ 9,
    promise_retained_after_success.2 "u" 0 ⟨some 3, none⟩ rfl⟩

/-- Claim C10: whenever `connectDB` resolves successfully, the value it
returns is a non-null handle and equals `cached.conn` at the moment of
resolution: the fast path returns the cached handle it found, and the
success continuation returns exactly the handle it just stored. -/
theorem success_returns_cached :
    (∀ (uri : String) (fresh : Nat) (c : MongooseCache) (x : Nat),
      (startCall uri fresh c).2.1 = StartRes.returnConn x →
        (startCall uri fresh c).1.conn = some x ∧ c.conn = some x) ∧
    (∀ (c : MongooseCache) (h : Nat),
      (settleOne c (.ok h)).2 = Except.ok h ∧
      (settleOne c (.ok h)).1.conn = some h) := by
  constructor
  · intro uri fresh c x
    rcases c with ⟨_ | y, _ | p⟩ <;> intro h <;>
      first | (cases h; exact ⟨rfl, rfl⟩) | cases h
  · intro c h; exact ⟨rfl, rfl⟩

/-- Witness for C10: the fast path at a connected cache returns handle 4,
which is the cached connection. -/
theorem success_returns_cached_witness :
    (startCall "u" 0 ⟨some 4, none⟩).1.conn = some 4 ∧
    (⟨some 4, none⟩ : MongooseCache).conn = some 4 :=
  success_returns_cached.1 "u" 0 ⟨some 4, none⟩ 4 rfl

end TechHub
